import Mathlib

/-!
Verification of the AtmosTrack / ETL_Pipeline repository core
(extract.py, transform.py, load.py, validate.py) against its
natural-language specification.

Numeric cells in the pipeline are pandas float values: either a finite
number or the IEEE NaN sentinel that pandas uses as its missing-value
marker.  We embed such a cell as `PVal`: a finite rational or `nan`.
Arithmetic propagates `nan`; every ordered comparison against `nan` is
false, exactly as in Python/IEEE float semantics.  JSON numeric source
values are finite, so `ℚ` suffices for the finite case.
-/

/-- A pandas numeric cell: a finite number or the NaN missing-value marker. -/
inductive PVal where
  | num (q : ℚ)
  | nan
deriving DecidableEq, Repr

namespace PVal

/-- Multiplication of a cell by a constant weight, as in `row.get(k) * 5`:
NaN propagates. -/
def scale (v : PVal) (k : ℚ) : PVal :=
  match v with
  | num q => num (q * k)
  | nan => nan

/-- Addition of two cells: NaN propagates (as in Python float `+`). -/
def add (a b : PVal) : PVal :=
  match a, b with
  | num x, num y => num (x + y)
  | _, _ => nan

/-- `v <= c` as evaluated by Python on a float cell: false when `v` is NaN. -/
def le (v : PVal) (c : ℚ) : Bool :=
  match v with
  | num q => decide (q ≤ c)
  | nan => false

/-- `v > c` as evaluated by Python on a float cell: false when `v` is NaN. -/
def gt (v : PVal) (c : ℚ) : Bool :=
  match v with
  | num q => decide (c < q)
  | nan => false

@[simp] theorem add_nan_left (b : PVal) : add nan b = nan := rfl

@[simp] theorem add_nan_right (a : PVal) : add a nan = nan := by
  cases a <;> rfl

@[simp] theorem scale_nan (k : ℚ) : scale nan k = nan := rfl

end PVal

/-!
## transform.py (AtmosTrack variant, `transform_city_file` / `transform_all`)

`compute_aqi`, `compute_severity`, `classify_risk` embedded directly from
src/AtmosTrack_ETL_pipeline/transform.py lines 26-54.
-/

/-- `compute_aqi(pm2_5)` from transform.py lines 26-36. -/
def compute_aqi (pm2_5 : PVal) : String :=
  if pm2_5.le 50 then "Good"
  else if pm2_5.le 100 then "Moderate"
  else if pm2_5.le 200 then "Unhealthy"
  else if pm2_5.le 300 then "Very Unhealthy"
  else "Hazardous"

/-- The numeric measurement columns of a row after the `pd.to_numeric`
conversion of transform.py line 76-77 (all seven columns are always
created there, so `row.get(col, 0)` inside `compute_severity` always
finds the key and its 0-default is never used). -/
structure Row where
  pm10 : PVal
  pm2_5 : PVal
  carbon_monoxide : PVal
  nitrogen_dioxide : PVal
  ozone : PVal
  sulphur_dioxide : PVal
  uv_index : PVal
deriving DecidableEq, Repr

/-- `compute_severity(row)` from transform.py lines 38-46: the weighted sum
`pm2_5*5 + pm10*3 + no2*4 + so2*4 + co*2 + o3*3` over pandas float cells
(NaN propagates through `*` and `+`). -/
def compute_severity (r : Row) : PVal :=
  ((((r.pm2_5.scale 5).add (r.pm10.scale 3)).add
      (r.nitrogen_dioxide.scale 4)).add
      (r.sulphur_dioxide.scale 4)).add
      ((r.carbon_monoxide.scale 2).add (r.ozone.scale 3))

/-- `classify_risk(severity)` from transform.py lines 48-54. -/
def classify_risk (severity : PVal) : String :=
  if severity.gt 400 then "High Risk"
  else if severity.gt 200 then "Moderate Risk"
  else "Low Risk"

/-- C4: the AQI category label is a step function of pm2_5 with inclusive
upper bounds: ≤50 Good (so exactly 50 is Good), (50,100] Moderate,
(100,200] Unhealthy, (200,300] Very Unhealthy, >300 Hazardous. -/
theorem compute_aqi_step_bounds (q : ℚ) :
    (q ≤ 50 → compute_aqi (PVal.num q) = "Good") ∧
    (50 < q → q ≤ 100 → compute_aqi (PVal.num q) = "Moderate") ∧
    (100 < q → q ≤ 200 → compute_aqi (PVal.num q) = "Unhealthy") ∧
    (200 < q → q ≤ 300 → compute_aqi (PVal.num q) = "Very Unhealthy") ∧
    (300 < q → compute_aqi (PVal.num q) = "Hazardous") := by
  refine ⟨?_, ?_, ?_, ?_, ?_⟩ <;> intros <;>
    simp only [compute_aqi, PVal.le] <;> split_ifs <;>
    first
      | rfl
      | (exfalso;
         simp_all only [decide_eq_true_eq, decide_eq_false_iff_not, not_true, not_le, not_lt];
         try linarith)

/-- C4 witness: boundary values 50 → Good, 100 → Moderate, 300 → Very
Unhealthy, 301 → Hazardous, evaluated through the theorem. -/
theorem compute_aqi_step_bounds_witness :
    compute_aqi (PVal.num 50) = "Good" ∧
    compute_aqi (PVal.num 100) = "Moderate" ∧
    compute_aqi (PVal.num 200) = "Unhealthy" ∧
    compute_aqi (PVal.num 300) = "Very Unhealthy" ∧
    compute_aqi (PVal.num 301) = "Hazardous" :=
  ⟨(compute_aqi_step_bounds 50).1 (by norm_num),
   (compute_aqi_step_bounds 100).2.1 (by norm_num) (by norm_num),
   (compute_aqi_step_bounds 200).2.2.1 (by norm_num) (by norm_num),
   (compute_aqi_step_bounds 300).2.2.2.1 (by norm_num) (by norm_num),
   (compute_aqi_step_bounds 301).2.2.2.2 (by norm_num)⟩

/-- C5: the risk tier is a step function of the severity score with
exclusive lower bounds: exactly 400 is Moderate, >400 is High,
exactly 200 is Low, (200,400] is Moderate, ≤200 is Low. -/
theorem classify_risk_step_bounds (s : ℚ) :
    (classify_risk (PVal.num 400) = "Moderate Risk") ∧
    (400 < s → classify_risk (PVal.num s) = "High Risk") ∧
    (classify_risk (PVal.num 200) = "Low Risk") ∧
    (200 < s → s ≤ 400 → classify_risk (PVal.num s) = "Moderate Risk") ∧
    (s ≤ 200 → classify_risk (PVal.num s) = "Low Risk") := by
  refine ⟨by decide, ?_, by decide, ?_, ?_⟩ <;> intros <;>
    simp only [classify_risk, PVal.gt] <;> split_ifs <;>
    first
      | rfl
      | (exfalso;
         simp_all only [decide_eq_true_eq, decide_eq_false_iff_not, not_true, not_le, not_lt];
         try linarith)

/-- C5 witness: severity 400 → Moderate, 401 → High, 200 → Low,
201 → Moderate, evaluated through the theorem. -/
theorem classify_risk_step_bounds_witness :
    classify_risk (PVal.num 400) = "Moderate Risk" ∧
    classify_risk (PVal.num 401) = "High Risk" ∧
    classify_risk (PVal.num 200) = "Low Risk" ∧
    classify_risk (PVal.num 201) = "Moderate Risk" :=
  ⟨(classify_risk_step_bounds 0).1,
   (classify_risk_step_bounds 401).2.1 (by norm_num),
   (classify_risk_step_bounds 0).2.2.1,
   (classify_risk_step_bounds 201).2.2.2.1 (by norm_num) (by norm_num)⟩

/-!
## Row-level model of `transform_city_file` / `transform_all`

A raw artifact's "hourly" structure yields one row per timestamp.  Line
77, `df[col] = pd.to_numeric(df.get(col, 0), errors="coerce")`,
distinguishes two kinds of absence: when a metric's key is missing from
"hourly" altogether, `df.get(col, 0)` returns the scalar default 0 and
the column is created filled with zeros (finite, not NaN); when the key
is present but an entry is null or unparsable, `errors="coerce"` turns
that entry into NaN.  `time` abstracts the parsed timestamp by the hour
value it yields: `some h` when `pd.to_datetime` (line 83) parses it,
`none` when it is unparsable (NaT, whose `.dt.hour` is NaN).
-/

/-- One measurement cell of a raw row as the conversion of line 77 sees
it: the whole column missing from the artifact (zero-filled by the
`df.get(col, 0)` default), a present column with a null/unparsable
entry at this row (coerced to NaN), or a JSON number (always finite). -/
inductive RawCell where
  | colMissing
  | null
  | val (q : ℚ)
deriving DecidableEq, Repr

/-- One raw per-timestamp row of an artifact, before numeric conversion. -/
structure RawRow where
  time : Option ℕ
  pm10 : RawCell
  pm2_5 : RawCell
  carbon_monoxide : RawCell
  nitrogen_dioxide : RawCell
  ozone : RawCell
  sulphur_dioxide : RawCell
  uv_index : RawCell
deriving DecidableEq, Repr

/-- `pd.to_numeric(df.get(col, 0), errors="coerce")` on one cell: a
missing column's scalar default is the finite number 0, a null entry of
a present column becomes NaN, a number stays itself. -/
def to_numeric (c : RawCell) : PVal :=
  match c with
  | RawCell.colMissing => PVal.num 0
  | RawCell.null => PVal.nan
  | RawCell.val q => PVal.num q

/-- The numeric conversion of line 76-77 applied to the seven measurement
columns of a row. -/
def numRow (r : RawRow) : Row :=
  { pm10 := to_numeric r.pm10
    pm2_5 := to_numeric r.pm2_5
    carbon_monoxide := to_numeric r.carbon_monoxide
    nitrogen_dioxide := to_numeric r.nitrogen_dioxide
    ozone := to_numeric r.ozone
    sulphur_dioxide := to_numeric r.sulphur_dioxide
    uv_index := to_numeric r.uv_index }

/-- The `dropna(subset=..., how="all")` condition of line 80, evaluated
on the already-converted columns: all six pollutant cells NaN
simultaneously.  Note the subset does not include `uv_index`, and a
zero-filled missing column is never NaN. -/
def all_pollutants_absent (n : Row) : Bool :=
  decide (n.pm10 = PVal.nan) && decide (n.pm2_5 = PVal.nan) &&
  decide (n.carbon_monoxide = PVal.nan) && decide (n.nitrogen_dioxide = PVal.nan) &&
  decide (n.ozone = PVal.nan) && decide (n.sulphur_dioxide = PVal.nan)

/-- One row of the staged table written by `transform_all`. -/
structure StagedRow where
  city : String
  pm10 : PVal
  pm2_5 : PVal
  carbon_monoxide : PVal
  nitrogen_dioxide : PVal
  ozone : PVal
  sulphur_dioxide : PVal
  uv_index : PVal
  hour : PVal
  AQI_category : String
  severity : PVal
  risk : String
deriving DecidableEq, Repr

/-- The per-row work of `transform_city_file` lines 73-89: numeric
conversion, city column, hour extraction, and the three derived
features. -/
def stage_row (city : String) (r : RawRow) : StagedRow :=
  { city := city
    pm10 := to_numeric r.pm10
    pm2_5 := to_numeric r.pm2_5
    carbon_monoxide := to_numeric r.carbon_monoxide
    nitrogen_dioxide := to_numeric r.nitrogen_dioxide
    ozone := to_numeric r.ozone
    sulphur_dioxide := to_numeric r.sulphur_dioxide
    uv_index := to_numeric r.uv_index
    hour := match r.time with
            | some h => PVal.num h
            | none => PVal.nan
    AQI_category := compute_aqi (to_numeric r.pm2_5)
    severity := compute_severity (numRow r)
    risk := classify_risk (compute_severity (numRow r)) }

/-- `transform_city_file` on the rows of one artifact: the dropna filter
of line 80 (all six pollutant cells NaN) followed by the per-row feature
computation of lines 83-89. -/
def transform_city_file (city : String) (rows : List RawRow) : List StagedRow :=
  (rows.filter (fun r => ! all_pollutants_absent (numRow r))).map (stage_row city)

/-- `transform_all` lines 96-112: per-artifact transform and ordered
concatenation (an artifact producing an empty frame contributes no
rows either way). -/
def transform_all (artifacts : List (String × List RawRow)) : List StagedRow :=
  artifacts.foldr (fun a acc => transform_city_file a.1 a.2 ++ acc) []

/-- A concrete raw row whose pm10 column holds 10 while the other six
metric columns are present but null at this row (time parses to
hour 3); it survives the dropna filter. -/
def pm10_only_row : RawRow :=
  ⟨some 3, RawCell.val 10, RawCell.null, RawCell.null, RawCell.null, RawCell.null,
   RawCell.null, RawCell.null⟩

/-- A concrete raw row of an artifact whose hourly structure carries
only the time and pm2_5 keys (pm2_5 = 10): the other six metric columns
are missing entirely and therefore zero-filled by line 77. -/
def pm2_5_only_row : RawRow :=
  ⟨some 3, RawCell.colMissing, RawCell.val 10, RawCell.colMissing, RawCell.colMissing,
   RawCell.colMissing, RawCell.colMissing, RawCell.colMissing⟩

/-!
## The staged CSV representation of a numeric cell

`transform_all` persists the staged table with `DataFrame.to_csv`
(line 107), whose default `na_rep` is the empty string: a NaN cell is
written as an empty field and a finite value as its decimal text.  The
cell grammar below also has a constructor for the literal "nan" token a
bare float print would produce, so we can state that it never occurs.
-/

/-- One field of the staged CSV as `to_csv` writes it. -/
inductive CsvCell where
  | empty
  | nanText
  | numText (q : ℚ)
deriving DecidableEq, Repr

/-- How `DataFrame.to_csv` serializes one numeric cell (default
`na_rep=""`). -/
def csv_num_cell (v : PVal) : CsvCell :=
  match v with
  | PVal.nan => CsvCell.empty
  | PVal.num q => CsvCell.numText q

/-- The nine numeric fields of a staged row, as listed in the staged
table header. -/
def numeric_cells (s : StagedRow) : List PVal :=
  [s.pm10, s.pm2_5, s.carbon_monoxide, s.nitrogen_dioxide, s.ozone,
   s.sulphur_dioxide, s.uv_index, s.severity, s.hour]

/-- C1: every numeric field of every row of the staged table is written
either as a finite number or as the explicit empty absence marker,
which differs from the rendering of zero; the "nan" text sentinel never
reaches the staged output. -/
theorem staged_cells_finite_or_absent
    (artifacts : List (String × List RawRow)) (s : StagedRow)
    (hs : s ∈ transform_all artifacts) (v : PVal) (hv : v ∈ numeric_cells s) :
    csv_num_cell v ≠ CsvCell.nanText ∧
    ((∃ q, v = PVal.num q ∧ csv_num_cell v = CsvCell.numText q) ∨
      (v = PVal.nan ∧ csv_num_cell v = CsvCell.empty)) ∧
    (v = PVal.nan → csv_num_cell v ≠ csv_num_cell (PVal.num 0)) := by
  cases v <;> simp [csv_num_cell]

/-- C1 witness: a one-artifact run whose single retained row has pm10
present, pm2_5 null, and hence a NaN severity cell: that cell is
serialized as the empty marker, not as a "nan" token. -/
theorem staged_cells_finite_or_absent_witness :
    csv_num_cell (stage_row "delhi" pm10_only_row).severity ≠ CsvCell.nanText ∧
    ((∃ q, (stage_row "delhi" pm10_only_row).severity = PVal.num q ∧
        csv_num_cell (stage_row "delhi" pm10_only_row).severity = CsvCell.numText q) ∨
      ((stage_row "delhi" pm10_only_row).severity = PVal.nan ∧
        csv_num_cell (stage_row "delhi" pm10_only_row).severity = CsvCell.empty)) ∧
    ((stage_row "delhi" pm10_only_row).severity = PVal.nan →
      csv_num_cell (stage_row "delhi" pm10_only_row).severity
          ≠ csv_num_cell (PVal.num 0)) :=
  staged_cells_finite_or_absent
    [("delhi", [pm10_only_row])]
    (stage_row "delhi" pm10_only_row)
    (by decide)
    (stage_row "delhi" pm10_only_row).severity
    (by decide)

/-!
## NaN fall-through in the derived labels (C10) and the severity rule (C2)
-/

/-- Shared helper: NaN propagates through the weighted severity sum. -/
theorem compute_severity_nan (n : Row)
    (h : n.pm2_5 = PVal.nan ∨ n.pm10 = PVal.nan ∨ n.nitrogen_dioxide = PVal.nan ∨
      n.sulphur_dioxide = PVal.nan ∨ n.carbon_monoxide = PVal.nan ∨ n.ozone = PVal.nan) :
    compute_severity n = PVal.nan := by
  rcases h with h | h | h | h | h | h <;> simp [compute_severity, h]

/-- C10: comparisons against NaN are false, so the step functions fall
through to their terminal else branch: a retained row with absent pm2_5
gets category "Hazardous", a row with NaN severity gets risk
"Low Risk", and severity is NaN whenever a contributing metric cell is
NaN (NaN propagates through the weighted sum). -/
theorem nan_fallthrough_labels :
    (∀ city r, to_numeric r.pm2_5 = PVal.nan →
        (stage_row city r).AQI_category = "Hazardous") ∧
    (∀ city r, (stage_row city r).severity = PVal.nan →
        (stage_row city r).risk = "Low Risk") ∧
    (∀ n : Row,
        (n.pm2_5 = PVal.nan ∨ n.pm10 = PVal.nan ∨ n.nitrogen_dioxide = PVal.nan ∨
          n.sulphur_dioxide = PVal.nan ∨ n.carbon_monoxide = PVal.nan ∨ n.ozone = PVal.nan) →
        compute_severity n = PVal.nan) := by
  refine ⟨?_, ?_, ?_⟩
  · intro city r h
    simp only [stage_row, h]
    rfl
  · intro city r h
    simp only [stage_row] at h ⊢
    rw [h]
    rfl
  · exact compute_severity_nan

/-- C10 witness: a row with null pm2_5 (and pm10 present, so it is
retained) is labelled Hazardous; its severity is NaN; NaN severity is
tiered Low Risk. -/
theorem nan_fallthrough_labels_witness :
    (stage_row "delhi" pm10_only_row).AQI_category = "Hazardous" ∧
    compute_severity (numRow pm10_only_row) = PVal.nan ∧
    (stage_row "delhi" pm10_only_row).risk = "Low Risk" :=
  ⟨nan_fallthrough_labels.1 "delhi" pm10_only_row rfl,
   nan_fallthrough_labels.2.2 (numRow pm10_only_row) (Or.inl rfl),
   nan_fallthrough_labels.2.1 "delhi" pm10_only_row
     (nan_fallthrough_labels.2.2 (numRow pm10_only_row) (Or.inl rfl))⟩

/-- Formalisation of C2's severity rule as the claim words it: every
absent metric is replaced by a zero-default before the weighted sum. -/
def zero_default (v : PVal) : ℚ :=
  match v with
  | PVal.num q => q
  | PVal.nan => 0

/-- The severity value C2 claims: the weighted sum over zero-defaulted
metrics (always a finite number). -/
def severity_claimed (n : Row) : ℚ :=
  zero_default n.pm2_5 * 5 + zero_default n.pm10 * 3 +
  zero_default n.nitrogen_dioxide * 4 + zero_default n.sulphur_dioxide * 4 +
  zero_default n.carbon_monoxide * 2 + zero_default n.ozone * 3

/-- C2 counterexample: both halves of the claim fail.  For a retained
row with pm10 = 10 and the other metric columns present-but-null, the
claim's zero-default rule demands severity 30, but `compute_severity`
yields NaN (a null cell reaches the sum as NaN).  And for a row whose
artifact carries only the pm2_5 key, the missing pm10 column is
zero-filled: the stored field is 0 — true absence is lost, not kept —
while severity becomes the zero-defaulted finite sum 50. -/
theorem severity_zero_default_refuted :
    compute_severity (numRow pm10_only_row) = PVal.nan ∧
    severity_claimed (numRow pm10_only_row) = 30 ∧
    compute_severity (numRow pm10_only_row)
        ≠ PVal.num (severity_claimed (numRow pm10_only_row)) ∧
    (stage_row "delhi" pm2_5_only_row).pm10 = PVal.num 0 ∧
    (stage_row "delhi" pm2_5_only_row).severity = PVal.num 50 := by
  refine ⟨rfl, ?_, ?_, rfl, ?_⟩
  · norm_num [severity_claimed, zero_default, numRow, pm10_only_row, to_numeric]
  · intro h
    exact absurd h.symm (by simp [compute_severity, numRow, pm10_only_row, to_numeric])
  · simp only [stage_row, numRow, pm2_5_only_row, compute_severity, to_numeric,
      PVal.scale, PVal.add, PVal.num.injEq]
    norm_num

/-- C2 amended: when all six contributing metrics are present as
numbers, the stored severity is the fixed linear combination
5*pm2_5 + 3*pm10 + 4*no2 + 4*so2 + 2*co + 3*o3.  A metric whose column
is present but null keeps explicit absence in its stored field and
makes severity the absence value (no zero-default).  A metric whose
entire column is missing from the artifact was zero-filled by
`df.get(col, 0)`: its stored field is the number 0 (true absence is
lost) and it contributes 0 to an otherwise finite severity sum — the
zero-default applies exactly to this column-missing case. -/
theorem severity_linear_combination :
    (∀ city r (a b c d e f : ℚ),
        r.pm10 = RawCell.val a → r.pm2_5 = RawCell.val b →
        r.carbon_monoxide = RawCell.val c → r.nitrogen_dioxide = RawCell.val d →
        r.ozone = RawCell.val e → r.sulphur_dioxide = RawCell.val f →
        (stage_row city r).severity
          = PVal.num (5 * b + 3 * a + 4 * d + 4 * f + 2 * c + 3 * e)) ∧
    (∀ city r, r.pm2_5 = RawCell.null →
        (stage_row city r).pm2_5 = PVal.nan ∧ (stage_row city r).severity = PVal.nan) ∧
    (∀ city r (a c d e f : ℚ),
        r.pm10 = RawCell.val a → r.pm2_5 = RawCell.colMissing →
        r.carbon_monoxide = RawCell.val c → r.nitrogen_dioxide = RawCell.val d →
        r.ozone = RawCell.val e → r.sulphur_dioxide = RawCell.val f →
        (stage_row city r).pm2_5 = PVal.num 0 ∧
        (stage_row city r).severity
          = PVal.num (5 * 0 + 3 * a + 4 * d + 4 * f + 2 * c + 3 * e)) := by
  refine ⟨?_, ?_, ?_⟩
  · intro city r a b c d e f h10 h25 hco hno ho hso
    simp only [stage_row, numRow, compute_severity, h10, h25, hco, hno, ho, hso,
      to_numeric, PVal.scale, PVal.add, PVal.num.injEq]
    ring
  · intro city r h
    refine ⟨by simp [stage_row, h, to_numeric], ?_⟩
    simp only [stage_row]
    exact compute_severity_nan (numRow r) (Or.inl (by simp [numRow, h, to_numeric]))
  · intro city r a c d e f h10 h25 hco hno ho hso
    refine ⟨by simp [stage_row, h25, to_numeric], ?_⟩
    simp only [stage_row, numRow, compute_severity, h10, h25, hco, hno, ho, hso,
      to_numeric, PVal.scale, PVal.add, PVal.num.injEq]
    ring

/-- C2 amended-claim witness: with all metrics present
(pm10=1, pm2_5=2, co=3, no2=4, o3=5, so2=6) the stored severity is the
weighted sum; with pm2_5 null both the stored field and severity are
the absence value; with the pm2_5 column missing the stored field is 0
and severity is the zero-defaulted finite sum. -/
theorem severity_linear_combination_witness :
    (stage_row "delhi" ⟨some 0, RawCell.val 1, RawCell.val 2, RawCell.val 3,
        RawCell.val 4, RawCell.val 5, RawCell.val 6, RawCell.val 7⟩).severity
      = PVal.num (5 * 2 + 3 * 1 + 4 * 4 + 4 * 6 + 2 * 3 + 3 * 5) ∧
    (stage_row "delhi" pm10_only_row).pm2_5 = PVal.nan ∧
    (stage_row "delhi" pm10_only_row).severity = PVal.nan ∧
    (stage_row "delhi" ⟨some 0, RawCell.val 1, RawCell.colMissing, RawCell.val 3,
        RawCell.val 4, RawCell.val 5, RawCell.val 6, RawCell.val 7⟩).pm2_5 = PVal.num 0 ∧
    (stage_row "delhi" ⟨some 0, RawCell.val 1, RawCell.colMissing, RawCell.val 3,
        RawCell.val 4, RawCell.val 5, RawCell.val 6, RawCell.val 7⟩).severity
      = PVal.num (5 * 0 + 3 * 1 + 4 * 4 + 4 * 6 + 2 * 3 + 3 * 5) :=
  ⟨severity_linear_combination.1 "delhi"
      ⟨some 0, RawCell.val 1, RawCell.val 2, RawCell.val 3, RawCell.val 4,
        RawCell.val 5, RawCell.val 6, RawCell.val 7⟩
      1 2 3 4 5 6 rfl rfl rfl rfl rfl rfl,
   (severity_linear_combination.2.1 "delhi" pm10_only_row rfl).1,
   (severity_linear_combination.2.1 "delhi" pm10_only_row rfl).2,
   (severity_linear_combination.2.2 "delhi"
      ⟨some 0, RawCell.val 1, RawCell.colMissing, RawCell.val 3, RawCell.val 4,
        RawCell.val 5, RawCell.val 6, RawCell.val 7⟩
      1 3 4 5 6 rfl rfl rfl rfl rfl rfl).1,
   (severity_linear_combination.2.2 "delhi"
      ⟨some 0, RawCell.val 1, RawCell.colMissing, RawCell.val 3, RawCell.val 4,
        RawCell.val 5, RawCell.val 6, RawCell.val 7⟩
      1 3 4 5 6 rfl rfl rfl rfl rfl rfl).2⟩

/-!
## Row retention (C6)

The `dropna` of line 80 runs after the conversion of line 77, and its
subset names only the six pollutant columns.  Two consequences: a
pollutant column missing from the artifact was zero-filled, so its
cells are finite and never count as absent — a row is dropped only when
all six pollutant columns are present-but-null at that row; and
`uv_index`, though a converted measurement column, is not in the subset
at all.
-/

/-- Shared helper: `transform_city_file` on a one-row artifact. -/
theorem transform_singleton (city : String) (r : RawRow) :
    transform_city_file city [r]
      = if all_pollutants_absent (numRow r) then [] else [stage_row city r] := by
  cases h : all_pollutants_absent (numRow r) <;> simp [transform_city_file, h]

/-- C6 counterexample: both directions of the claimed iff fail on the
code.  A row whose six pollutant columns are present but null while
uv_index holds 5 is discarded even though it has a present measurement
field; and a row from an artifact whose hourly structure carries no
measurement key at all (every metric column zero-filled) is retained
even though all of its measurement fields are absent. -/
theorem retention_uv_only_row_refuted :
    transform_city_file "delhi"
      [⟨some 3, RawCell.null, RawCell.null, RawCell.null, RawCell.null, RawCell.null,
        RawCell.null, RawCell.val 5⟩] = [] ∧
    to_numeric (RawRow.uv_index
      ⟨some 3, RawCell.null, RawCell.null, RawCell.null, RawCell.null, RawCell.null,
        RawCell.null, RawCell.val 5⟩) ≠ PVal.nan ∧
    (transform_city_file "delhi"
      [⟨some 3, RawCell.colMissing, RawCell.colMissing, RawCell.colMissing,
        RawCell.colMissing, RawCell.colMissing, RawCell.colMissing,
        RawCell.colMissing⟩]).length = 1 := by
  refine ⟨rfl, by decide, by decide⟩

/-- C6 amended: a parsed row is discarded if and only if all six
pollutant cells convert to NaN — that is, each pollutant column is
present in the artifact but null/unparsable at this row.  A pollutant
column missing from the artifact altogether counts as present-with-zero
(so a row whose pollutant columns are all missing is always retained),
and uv_index never affects retention. -/
theorem retention_iff_some_pollutant_present (city : String) (r : RawRow) :
    ((transform_city_file city [r]).length = 1 ↔
      ¬(to_numeric r.pm10 = PVal.nan ∧ to_numeric r.pm2_5 = PVal.nan ∧
        to_numeric r.carbon_monoxide = PVal.nan ∧ to_numeric r.nitrogen_dioxide = PVal.nan ∧
        to_numeric r.ozone = PVal.nan ∧ to_numeric r.sulphur_dioxide = PVal.nan)) ∧
    (transform_city_file city [r] = [] ↔
      (to_numeric r.pm10 = PVal.nan ∧ to_numeric r.pm2_5 = PVal.nan ∧
        to_numeric r.carbon_monoxide = PVal.nan ∧ to_numeric r.nitrogen_dioxide = PVal.nan ∧
        to_numeric r.ozone = PVal.nan ∧ to_numeric r.sulphur_dioxide = PVal.nan)) ∧
    (∀ u, (transform_city_file city [{r with uv_index := u}]).length =
          (transform_city_file city [r]).length) ∧
    (∀ (t : Option ℕ) (u : RawCell),
      (transform_city_file city
        [⟨t, RawCell.colMissing, RawCell.colMissing, RawCell.colMissing,
          RawCell.colMissing, RawCell.colMissing, RawCell.colMissing, u⟩]).length = 1) := by
  have habs : all_pollutants_absent (numRow r) = true ↔
      (to_numeric r.pm10 = PVal.nan ∧ to_numeric r.pm2_5 = PVal.nan ∧
        to_numeric r.carbon_monoxide = PVal.nan ∧ to_numeric r.nitrogen_dioxide = PVal.nan ∧
        to_numeric r.ozone = PVal.nan ∧ to_numeric r.sulphur_dioxide = PVal.nan) := by
    simp [all_pollutants_absent, numRow, Bool.and_eq_true, decide_eq_true_eq, and_assoc]
  refine ⟨?_, ?_, ?_, ?_⟩
  · rw [transform_singleton]
    cases h : all_pollutants_absent (numRow r) <;> simp [h, ← habs]
  · rw [transform_singleton]
    cases h : all_pollutants_absent (numRow r) <;> simp [h, ← habs]
  · intro u
    have he : all_pollutants_absent (numRow {r with uv_index := u})
        = all_pollutants_absent (numRow r) := rfl
    rw [transform_singleton, transform_singleton, he]
    cases h : all_pollutants_absent (numRow r) <;> simp [h]
  · intro t u
    rw [transform_singleton]
    simp [all_pollutants_absent, numRow, to_numeric]

/-- C6 amended-claim witness: a row with pm10 present as a number and
the other pollutant columns null is retained; the length fact follows
through the theorem at that row. -/
theorem retention_iff_some_pollutant_present_witness :
    (transform_city_file "delhi" [pm10_only_row]).length = 1 :=
  (retention_iff_some_pollutant_present "delhi" pm10_only_row).1.mpr
    (by simp [pm10_only_row, to_numeric])

/-!
## load.py: batching and per-batch retry (C3)

`insert_batches` (lines 89-122) slices the prepared records into
consecutive `BATCH_SIZE` slices (`records[idx:idx+BATCH_SIZE]` for
`idx = 0, BATCH_SIZE, 2*BATCH_SIZE, ...`), runs a per-batch while loop
of at most `LOAD_MAX_RETRIES+1` insert attempts, counts the rows of the
successful batches, and returns only that count; a batch that exhausts
its retries is skipped and reported through a log print only.  The
oracle `ok b a` says whether attempt `a` (0-based) of the 1-based batch
number `b` would succeed at the sink.
-/

def BATCH_SIZE : ℕ := 200

def LOAD_MAX_RETRIES : ℕ := 2

/-- The consecutive slices `records[idx:idx+size]` of the insert loop,
with fuel bounded by the list length (each step consumes at least one
record when `size ≥ 1`). -/
def slice_batches_aux (size : ℕ) : ℕ → List α → List (List α)
  | _, [] => []
  | 0, _ :: _ => []
  | fuel + 1, x :: xs => ((x :: xs).take size) :: slice_batches_aux size fuel ((x :: xs).drop size)

/-- The list of load batches of `insert_batches` lines 96-98. -/
def slice_batches (size : ℕ) (l : List α) : List (List α) :=
  slice_batches_aux size l.length l

/-- The while loop of lines 101-121 performs insert attempts
`0, 1, ..., LOAD_MAX_RETRIES` until one succeeds; the batch ends up
inserted iff one of those attempts succeeds. -/
def batch_inserted (ok : ℕ → ℕ → Bool) (batch_no : ℕ) : Bool :=
  (List.range (LOAD_MAX_RETRIES + 1)).any (ok batch_no)

/-- Row-count accumulation over the batch loop (`inserted += len(batch)`
on success, nothing on a skipped batch), with 1-based batch numbers. -/
def insert_batches_go (ok : ℕ → ℕ → Bool) (batch_no : ℕ) : List (List α) → ℕ
  | [] => 0
  | b :: bs =>
    (if batch_inserted ok batch_no then b.length else 0) + insert_batches_go ok (batch_no + 1) bs

/-- `insert_batches(records)`: its return value is ONLY the total
inserted row count. -/
def insert_batches (ok : ℕ → ℕ → Bool) (records : List α) : ℕ :=
  insert_batches_go ok 1 (slice_batches BATCH_SIZE records)

/-- The 1-based batch numbers reported by the "Skipping batch ... after
repeated failures" log line — printed, never returned. -/
def skipped_batches_go (ok : ℕ → ℕ → Bool) (batch_no : ℕ) : List (List α) → List ℕ
  | [] => []
  | _ :: bs =>
    (if batch_inserted ok batch_no then [] else [batch_no]) ++
      skipped_batches_go ok (batch_no + 1) bs

/-- The skipped-batch numbers of a whole `insert_batches` run. -/
def skipped_batches (ok : ℕ → ℕ → Bool) (records : List α) : List ℕ :=
  skipped_batches_go ok 1 (slice_batches BATCH_SIZE records)

/-- The two totals printed by `load_data` line 135
(`inserted/len(records)`): the inserted count (the only returned value)
and the attempted count taken from the staged record list itself. -/
def load_summary (ok : ℕ → ℕ → Bool) (records : List α) : ℕ × ℕ :=
  (insert_batches ok records, records.length)

theorem slice_batches_aux_nil (size fuel : ℕ) :
    slice_batches_aux size fuel ([] : List α) = [] := by
  cases fuel <;> rfl

theorem slice_batches_aux_step (size fuel : ℕ) (l : List α) (hl : l ≠ []) :
    slice_batches_aux size (fuel + 1) l
      = l.take size :: slice_batches_aux size fuel (l.drop size) := by
  cases l with
  | nil => exact absurd rfl hl
  | cons x xs => rfl

/-- The three slices of a 450-record table at batch size 200. -/
theorem slice_batches_of_length_450 (records : List α) (h : records.length = 450) :
    slice_batches BATCH_SIZE records
      = [records.take 200, (records.drop 200).take 200, records.drop 400] := by
  have h0 : records ≠ [] := by
    intro hnil
    rw [hnil] at h
    simp at h
  have h1 : records.drop 200 ≠ [] := by
    intro hnil
    have := congrArg List.length hnil
    simp [h] at this
  have h2 : records.drop 400 ≠ [] := by
    intro hnil
    have := congrArg List.length hnil
    simp [h] at this
  have hdd : (records.drop 200).drop 200 = records.drop 400 := by
    rw [List.drop_drop]
  have hdd2 : (records.drop 400).drop 200 = [] := by
    apply List.eq_nil_of_length_eq_zero
    simp [h]
  have htake : (records.drop 400).take 200 = records.drop 400 := by
    apply List.take_of_length_le
    simp [h]
  unfold slice_batches BATCH_SIZE
  rw [h]
  rw [show (450 : ℕ) = 449 + 1 from rfl, slice_batches_aux_step _ _ _ h0]
  rw [show (449 : ℕ) = 448 + 1 from rfl, slice_batches_aux_step _ _ _ h1, hdd]
  rw [show (448 : ℕ) = 447 + 1 from rfl, slice_batches_aux_step _ _ _ h2, hdd2, htake]
  rw [slice_batches_aux_nil]

/-- Inserted-count computation for any 450-record table: batch k
contributes its size (200, 200, 50) exactly when it is inserted. -/
theorem insert_batches_eq_450 {α : Type} (records : List α)
    (h : records.length = 450) (ok : ℕ → ℕ → Bool) :
    insert_batches ok records
      = (if batch_inserted ok 1 then 200 else 0) +
        ((if batch_inserted ok 2 then 200 else 0) +
          ((if batch_inserted ok 3 then 50 else 0) + 0)) := by
  have l1 : (records.take 200).length = 200 := by
    rw [List.length_take, h]
    norm_num
  have l2 : ((records.drop 200).take 200).length = 200 := by
    rw [List.length_take, List.length_drop, h]
    norm_num
  have l3 : (records.drop 400).length = 50 := by
    rw [List.length_drop, h]
  unfold insert_batches
  rw [slice_batches_of_length_450 _ h]
  simp only [insert_batches_go, l1, l2, l3]

/-- Skipped-batch log computation for any 450-record table. -/
theorem skipped_batches_eq_450 {α : Type} (records : List α)
    (h : records.length = 450) (ok : ℕ → ℕ → Bool) :
    skipped_batches ok records
      = (if batch_inserted ok 1 then [] else [1]) ++
        ((if batch_inserted ok 2 then [] else [2]) ++
          ((if batch_inserted ok 3 then [] else [3]) ++ [])) := by
  unfold skipped_batches
  rw [slice_batches_of_length_450 _ h]
  simp only [skipped_batches_go]

/-- C3 counterexample: two 450-record runs in which a different batch
permanently fails (batch 1 vs. batch 2, both of size 200) return the
very same value 250 from `insert_batches`, while the skipped-batch log
differs — so the returned value carries no list of failed batch
indices/ranges identifying the middle batch; and the all-success run
returns 450, so the single returned number is the inserted count, not a
report that also carries attempted=450 (the code returns only the
inserted count; failures and the attempted total appear only in
prints). -/
theorem load_report_not_returned :
    insert_batches (fun b _ => decide (b ≠ 2)) (List.range 450)
      = insert_batches (fun b _ => decide (b ≠ 1)) (List.range 450) ∧
    insert_batches (fun b _ => decide (b ≠ 2)) (List.range 450) = 250 ∧
    skipped_batches (fun b _ => decide (b ≠ 2)) (List.range 450) = [2] ∧
    skipped_batches (fun b _ => decide (b ≠ 1)) (List.range 450) = [1] ∧
    insert_batches (fun _ _ => true) (List.range 450) = 450 := by
  have hlen : (List.range 450).length = 450 := List.length_range 450
  rw [insert_batches_eq_450 _ hlen, insert_batches_eq_450 _ hlen,
    skipped_batches_eq_450 _ hlen, skipped_batches_eq_450 _ hlen,
    insert_batches_eq_450 _ hlen]
  refine ⟨?_, ?_, ?_, ?_, ?_⟩ <;> decide

/-- C3 amended: a 450-record staged table with batch size 200 is
partitioned, in original order, into exactly 3 batches of sizes 200,
200, 50; when the middle batch fails permanently while the others
succeed, each batch still gets its own outcome (1 and 3 inserted, 2
exhausted), `insert_batches` returns the inserted count 250, the
attempted total 450 is the staged record count reported alongside it by
`load_data`'s summary line, and the failed middle batch is identified
only by the skip log, not by any returned report. -/
theorem load_partition_and_partial_failure {α : Type} (records : List α)
    (h : records.length = 450) :
    (slice_batches BATCH_SIZE records).map List.length = [200, 200, 50] ∧
    (slice_batches BATCH_SIZE records).foldr (· ++ ·) [] = records ∧
    batch_inserted (fun b _ => decide (b ≠ 2)) 1 = true ∧
    batch_inserted (fun b _ => decide (b ≠ 2)) 2 = false ∧
    batch_inserted (fun b _ => decide (b ≠ 2)) 3 = true ∧
    load_summary (fun b _ => decide (b ≠ 2)) records = (250, 450) ∧
    skipped_batches (fun b _ => decide (b ≠ 2)) records = [2] := by
  have l1 : (records.take 200).length = 200 := by
    rw [List.length_take, h]
    norm_num
  have l2 : ((records.drop 200).take 200).length = 200 := by
    rw [List.length_take, List.length_drop, h]
    norm_num
  have l3 : (records.drop 400).length = 50 := by
    rw [List.length_drop, h]
  refine ⟨?_, ?_, by decide, by decide, by decide, ?_, ?_⟩
  · rw [slice_batches_of_length_450 _ h]
    simp [l1, l2, l3]
  · rw [slice_batches_of_length_450 _ h]
    simp only [List.foldr_cons, List.foldr_nil, List.append_nil]
    rw [show (400 : ℕ) = 200 + 200 from rfl, List.drop_take_append_drop,
      List.take_append_drop]
  · unfold load_summary
    rw [insert_batches_eq_450 _ h, h]
    decide
  · rw [skipped_batches_eq_450 _ h]
    decide

/-- C3 amended-claim witness: the partition and report facts evaluated
through the theorem on the concrete 450-record table `List.range 450`. -/
theorem load_partition_and_partial_failure_witness :
    (slice_batches BATCH_SIZE (List.range 450)).map List.length = [200, 200, 50] ∧
    (slice_batches BATCH_SIZE (List.range 450)).foldr (· ++ ·) [] = List.range 450 ∧
    batch_inserted (fun b _ => decide (b ≠ 2)) 1 = true ∧
    batch_inserted (fun b _ => decide (b ≠ 2)) 2 = false ∧
    batch_inserted (fun b _ => decide (b ≠ 2)) 3 = true ∧
    load_summary (fun b _ => decide (b ≠ 2)) (List.range 450) = (250, 450) ∧
    skipped_batches (fun b _ => decide (b ≠ 2)) (List.range 450) = [2] :=
  load_partition_and_partial_failure (List.range 450) (List.length_range 450)

/-!
## extract.py: `fetch_city` retry/backoff and `fetch_all_cities` (C7, C8)

`fetch_city` (lines 46-68) tries attempts 1..MAX_RETRIES; after a failed
attempt that is not the last it sleeps `2 ** (attempt - 1)` seconds (base
delay 1s doubling each attempt); after the final attempt no delay is
inserted and a failure record `{"city": city, "success": False, "error":
"Failed after {MAX_RETRIES} attempts"}` is returned - never raised.  The
oracle `succ a` says whether the HTTP call of attempt `a` succeeds.
-/

def MAX_RETRIES : ℕ := 3

/-- The value returned by `fetch_city`: the city, the success flag, and
on failure the attempt count carried in the error message.  (The
`raw_path` of a success is a wall-clock-named file path, outside the
claims and omitted.) -/
structure FetchResult where
  city : String
  success : Bool
  error_attempts : Option ℕ
deriving DecidableEq, Repr

/-- The retry loop from 1-based attempt number `attempt` with `remaining`
attempts still allowed: returns the result together with the number of
attempts performed and the total seconds slept. -/
def fetch_go (succ : ℕ → Bool) (city : String) (attempt remaining : ℕ) :
    FetchResult × ℕ × ℕ :=
  if remaining = 0 then (⟨city, false, some MAX_RETRIES⟩, 0, 0)
  else if succ attempt then (⟨city, true, none⟩, 1, 0)
  else if remaining = 1 then (⟨city, false, some MAX_RETRIES⟩, 1, 0)
  else
    let rest := fetch_go succ city (attempt + 1) (remaining - 1)
    (rest.1, rest.2.1 + 1, rest.2.2 + 2 ^ (attempt - 1))
termination_by remaining
decreasing_by simp_wf; omega

/-- `fetch_city(city, ...)`: the whole loop of attempts 1..MAX_RETRIES. -/
def fetch_city (succ : ℕ → Bool) (city : String) : FetchResult × ℕ × ℕ :=
  fetch_go succ city 1 MAX_RETRIES

/-- `fetch_all_cities` (lines 71-77): one `fetch_city` call per
configured city, one appended result each (the fixed inter-city sleep
does not affect the result list). -/
def fetch_all_cities (succ : String → ℕ → Bool) (cities : List String) :
    List FetchResult :=
  cities.map (fun c => (fetch_city (succ c) c).1)

/-- C7: a fetch performs at most MAX_RETRIES = 3 attempts, and when all
attempts fail the total slept delay equals the sum of the doubling
backoff schedule over the non-final attempts (2^0 + 2^1 seconds for
attempts 1 and 2; no delay after attempt 3). -/
theorem fetch_retry_bound (succ : ℕ → Bool) (city : String) :
    (fetch_city succ city).2.1 ≤ MAX_RETRIES ∧
    ((∀ a, 1 ≤ a → a ≤ MAX_RETRIES → succ a = false) →
      (fetch_city succ city).2.1 = MAX_RETRIES ∧
      (fetch_city succ city).2.2
        = ((List.range (MAX_RETRIES - 1)).map (fun k => 2 ^ k)).sum) := by
  constructor
  · cases h1 : succ 1 <;> cases h2 : succ 2 <;> cases h3 : succ 3 <;>
      simp [fetch_city, fetch_go, MAX_RETRIES, h1, h2, h3]
  · intro hfail
    have f1 := hfail 1 (by decide) (by decide)
    have f2 := hfail 2 (by decide) (by decide)
    have f3 := hfail 3 (by decide) (by decide)
    constructor <;> simp [fetch_city, fetch_go, MAX_RETRIES, f1, f2, f3] <;> decide

/-- C7 witness: with every attempt failing, fetch for Delhi performs
exactly 3 attempts and sleeps 1 + 2 = 3 seconds in total. -/
theorem fetch_retry_bound_witness :
    (fetch_city (fun _ => false) "Delhi").2.1 ≤ MAX_RETRIES ∧
    (fetch_city (fun _ => false) "Delhi").2.1 = MAX_RETRIES ∧
    (fetch_city (fun _ => false) "Delhi").2.2
      = ((List.range (MAX_RETRIES - 1)).map (fun k => 2 ^ k)).sum :=
  ⟨(fetch_retry_bound (fun _ => false) "Delhi").1,
   ((fetch_retry_bound (fun _ => false) "Delhi").2 (fun _ _ _ => rfl)).1,
   ((fetch_retry_bound (fun _ => false) "Delhi").2 (fun _ _ _ => rfl)).2⟩

/-- C8: on exhausting retries `fetch_city` returns (it is a total
function, nothing is raised) a failure record carrying the city and the
attempt count; `fetch_all_cities` yields exactly one result per
configured city, in order, each carrying its own city identifier, and
every city's result is present regardless of failures. -/
theorem fetch_failure_isolated :
    (∀ (succ : ℕ → Bool) (city : String),
      (∀ a, 1 ≤ a → a ≤ MAX_RETRIES → succ a = false) →
      (fetch_city succ city).1
        = { city := city, success := false, error_attempts := some MAX_RETRIES }) ∧
    (∀ (succ : ℕ → Bool) (city : String), ((fetch_city succ city).1).city = city) ∧
    (∀ (succ : String → ℕ → Bool) (cities : List String),
      (fetch_all_cities succ cities).length = cities.length) ∧
    (∀ (succ : String → ℕ → Bool) (cities : List String) (c : String), c ∈ cities →
      (fetch_city (succ c) c).1 ∈ fetch_all_cities succ cities) ∧
    (∀ (succ : String → ℕ → Bool) (cities : List String) r,
      r ∈ fetch_all_cities succ cities →
      ∃ c ∈ cities, r = (fetch_city (succ c) c).1) := by
  refine ⟨?_, ?_, ?_, ?_, ?_⟩
  · intro succ city hfail
    have f1 := hfail 1 (by decide) (by decide)
    have f2 := hfail 2 (by decide) (by decide)
    have f3 := hfail 3 (by decide) (by decide)
    simp [fetch_city, fetch_go, MAX_RETRIES, f1, f2, f3]
  · intro succ city
    cases h1 : succ 1 <;> cases h2 : succ 2 <;> cases h3 : succ 3 <;>
      simp [fetch_city, fetch_go, MAX_RETRIES, h1, h2, h3]
  · intro succ cities
    simp [fetch_all_cities]
  · intro succ cities c hc
    exact List.mem_map_of_mem _ hc
  · intro succ cities r hr
    obtain ⟨c, hc, hrc⟩ := List.mem_map.mp hr
    exact ⟨c, hc, hrc.symm⟩

/-- C8 witness: a two-city run in which Delhi exhausts all retries still
produces one result per city, and Delhi's record carries its name and
the attempt count 3. -/
theorem fetch_failure_isolated_witness :
    (fetch_city (fun _ => false) "Delhi").1
      = { city := "Delhi", success := false, error_attempts := some MAX_RETRIES } ∧
    (fetch_all_cities (fun _ _ => false) ["Delhi", "Mumbai"]).length
      = (["Delhi", "Mumbai"] : List String).length ∧
    (fetch_city ((fun _ _ => false) "Delhi") "Delhi").1
      ∈ fetch_all_cities (fun _ _ => false) ["Delhi", "Mumbai"] :=
  ⟨fetch_failure_isolated.1 (fun _ => false) "Delhi" (fun _ _ _ => rfl),
   fetch_failure_isolated.2.2.1 (fun _ _ => false) ["Delhi", "Mumbai"],
   fetch_failure_isolated.2.2.2.1 (fun _ _ => false) ["Delhi", "Mumbai"] "Delhi"
     (by simp)⟩

/-!
## validate.py (ETL_Pipeline/task3): the coded-field check (C9)

transform_telecom_data lines 92-96 map Contract to
`contract_type_code` via {Month-to-month: 0, One year: 1, Two year: 2}
followed by `.fillna(0)`, so the field's defined value set is {0, 1, 2}
(also the set named by validate.py's own header comment).  validate()
line 77, however, accepts any subset of {-1, 0, 1, 2}.
-/

/-- The contract coding of transform_telecom_data lines 92-96: unmapped
or missing contract values are filled with 0. -/
def contract_type_code (contract : String) : ℤ :=
  if contract = "Month-to-month" then 0
  else if contract = "One year" then 1
  else if contract = "Two year" then 2
  else 0

/-- The defined finite value set of the coded field: the codomain of the
contract mapping. -/
def contract_code_values : List ℤ := [0, 1, 2]

/-- validate() line 77: the check passes iff every distinct code present
is in {-1, 0, 1, 2} (`issubset({-1,0,1,2})`). -/
def contract_codes_ok (codes : List ℤ) : Bool :=
  codes.all (fun c => decide (c = -1) || decide (c = 0) || decide (c = 1) || decide (c = 2))

/-- C9: the coded-field check accepts the value -1 even though -1 lies
outside the defined value set {0, 1, 2} of `contract_type_code` (whose
codomain is proven below), contradicting validate.py's own header
("Contract codes only in {0,1,2}"); a value such as 3 is still
rejected, so the check is otherwise the subset test the claim
describes. -/
theorem contract_code_check_accepts_invalid :
    contract_codes_ok [-1] = true ∧
    (-1 : ℤ) ∉ contract_code_values ∧
    (∀ s, contract_type_code s ∈ contract_code_values) ∧
    contract_codes_ok [0, 3] = false := by
  refine ⟨by decide, by decide, ?_, by decide⟩
  intro s
  unfold contract_type_code contract_code_values
  split_ifs <;> simp
